import Mathlib

/-!
Verification of the Refactoring Swarm repository against its specification.

The development shallowly embeds the Python source:

* `ToolsmithAPI.py` — sandboxed file store, linter/test-runner adapters and
  the syntax checker.  Pure string manipulation is translated directly
  (Python `str` operations become executable functions on `List Char`);
  operating-system effects (path resolution, file existence, subprocess
  outcomes, raised exceptions) are passed in explicitly through environment
  records, and exceptions are modelled with `Except` values that the
  embedded functions catch exactly where the Python `try/except` blocks do.
* `src/agents/*.py` — the auditor / fixer / judge roles.  The remote
  text-generation call is an oracle input (the response string or the
  raised exception); the post-processing of the response is translated
  directly.
* `main.py` — the discovery phase's per-file selection rule and the
  bounded per-file retry loop, embedded as a fuel-indexed recursion where
  the fuel equals the number of remaining loop iterations
  (`fuel = max_iterations - iteration`, so the `while iteration <
  max_iterations` guard becomes `fuel > 0`).  Every external action of an
  iteration (read result, fixer result, write result, syntax-check result,
  test statistics, judge verdict) is supplied by an environment indexed by
  the iteration number, and the loop additionally returns a trace
  recording, per executed iteration, which fixer mode was invoked and
  whether the test runner was invoked.
-/

namespace RefactoringSwarm

/-! ## Python string primitives

Python `str` operations used by the source, implemented over the
character list of a Lean `String` so that every definition evaluates by
kernel reduction. -/

/-- Python `s.startswith(pre)`. -/
def strStartsWith (s pre : String) : Bool :=
  pre.data.isPrefixOf s.data

/-- Python `s.endswith(suf)`. -/
def strEndsWith (s suf : String) : Bool :=
  suf.data.isSuffixOf s.data

/-- Python `s.strip()`: remove whitespace from both ends. -/
def strStrip (s : String) : String :=
  ⟨((s.data.dropWhile Char.isWhitespace).reverse.dropWhile Char.isWhitespace).reverse⟩

/-- Python `s[n:]`. -/
def strDrop (s : String) (n : Nat) : String :=
  ⟨s.data.drop n⟩

/-- Python `s[:-n]` (for `n ≤ len(s)`). -/
def strDropRight (s : String) (n : Nat) : String :=
  ⟨s.data.take (s.data.length - n)⟩

/-- `pat` occurs as a contiguous sublist of `s`. -/
def listContainsSub (pat : List Char) : List Char → Bool
  | [] => pat.isEmpty
  | c :: rest => pat.isPrefixOf (c :: rest) || listContainsSub pat rest

/-- Python `pat in s` (substring containment). -/
def strContains (s pat : String) : Bool :=
  listContainsSub pat.data s.data

/-! ## `ToolsmithAPI._validate_path` (C1)

`ToolsmithAPI.py` lines 40–64.  `Path(file_path).resolve()` is an
operating-system effect, so the embedded function takes the already
canonicalized (resolved) path string as input and performs exactly the
check the source performs on it: a plain string-prefix test against the
resolved sandbox root. -/

/-- Embeds `ToolsmithAPI._validate_path`: accept the resolved path iff
`str(resolved).startswith(str(self.sandbox_root))`, otherwise raise
`SecurityError` (modelled as `Except.error` carrying the message). -/
def validate_path (sandbox_root resolved : String) : Except String String :=
  if strStartsWith resolved sandbox_root then Except.ok resolved
  else Except.error ("Access denied: " ++ resolved ++ " is outside sandbox " ++ sandbox_root)

/-- Modelled from the spec: the canonical form of a path is a descendant
of (or equal to) `SandboxRoot` when it equals the root or extends the
root by a path separator.  This is the rejection criterion §8 of the
spec demands of `resolvePath`; it is not present in the source, which
uses a bare string-prefix test. -/
def specDescendantOf (sandbox_root p : String) : Bool :=
  p == sandbox_root || strStartsWith p (sandbox_root ++ "/")

end RefactoringSwarm

namespace RefactoringSwarm

/-- Claim C1: the path validation is claimed to reject every path whose
canonical form is not a descendant of (or equal to) the sandbox root.
The source instead accepts any resolved path whose string merely starts
with the root string: with sandbox root `/sandbox`, the resolved path
`/sandbox_evil/secret.txt` is accepted by `_validate_path` although it
is not a descendant of the sandbox root, contradicting the function's
own documentation ("Raises SecurityError: If path is outside sandbox")
and the spec, which flags this prefix comparison as a correctness gap in
the original. -/
theorem validate_path_accepts_non_descendant :
    validate_path "/sandbox" "/sandbox_evil/secret.txt"
      = Except.ok "/sandbox_evil/secret.txt"
    ∧ specDescendantOf "/sandbox" "/sandbox_evil/secret.txt" = false := by
  constructor
  · rfl
  · decide

end RefactoringSwarm

namespace RefactoringSwarm

/-! ## Decision roles (`src/agents/*.py`, C3)

`BaseAgent._call_llm` wraps the remote call in `try/except` and, on any
exception, returns the sentinel string `"ERROR: " + str(e)` instead of
raising.  The remote call's outcome (response text or raised exception
message) is the oracle input. -/

/-- Embeds `BaseAgent._call_llm`: the response text on success, the
`"ERROR: ..."` sentinel on a raised exception. -/
def call_llm (outcome : Except String String) : String :=
  match outcome with
  | Except.ok text => text
  | Except.error e => "ERROR: " ++ e

/-- Embeds the fence-stripping post-processing of `FixerAgent.fix_file`
(lines 48–59, identical in `fix_from_test_errors`): strip whitespace,
drop a leading ```` ```python ```` or ```` ``` ```` marker, drop a
trailing ```` ``` ```` marker, strip again. -/
def strip_code_fences (response : String) : String :=
  let fixed := strStrip response
  let fixed :=
    if strStartsWith fixed "```python" then strDrop fixed 9
    else if strStartsWith fixed "```" then strDrop fixed 3
    else fixed
  let fixed := if strEndsWith fixed "```" then strDropRight fixed 3 else fixed
  strStrip fixed

/-- Result dictionary of `FixerAgent.fix_file`. -/
structure FixResult where
  success : Bool
  fixed_code : String
  raw_response : String
  deriving DecidableEq

/-- Embeds `FixerAgent.fix_file` as a function of the LLM response: the
source unconditionally returns `success=True` with the fence-stripped
response as `fixed_code`. -/
def fix_file (response : String) : FixResult :=
  { success := true
    fixed_code := strip_code_fences response
    raw_response := response }

/-- A judge evaluation parsed from a JSON response; the `tests_passed`
key may be absent, in which case `evaluate_tests` reads it as `False`. -/
structure JudgeEval where
  tests_passed : Option Bool
  errors : List String
  deriving DecidableEq

/-- Result dictionary of `JudgeAgent.evaluate_tests`; the failure branch
carries no `tests_passed`/`errors` keys (`none` here). -/
structure JudgeResult where
  success : Bool
  tests_passed : Option Bool
  errors : Option (List String)
  error : Option String
  deriving DecidableEq

/-- Embeds `JudgeAgent.evaluate_tests` as a function of the parsed
response (`extract_json_from_response` yields `none` exactly when the
response fails to parse as JSON). -/
def evaluate_tests (evaluation : Option JudgeEval) : JudgeResult :=
  match evaluation with
  | some e =>
      { success := true
        tests_passed := some (e.tests_passed.getD false)
        errors := some e.errors
        error := none }
  | none =>
      { success := false
        tests_passed := none
        errors := none
        error := some "Failed to parse JSON response" }

/-- Embeds `JudgeAgent.should_continue`: continue whenever the
evaluation failed to parse or the verdict reports failing tests. -/
def should_continue (evaluation : JudgeResult) : Bool :=
  if !evaluation.success then true
  else !(evaluation.tests_passed.getD false)

/-- One pylint issue as consumed by the auditor fallback. -/
structure PyIssue where
  type : String
  line : Nat
  message : String
  deriving DecidableEq

/-- One refactoring-plan step. -/
structure PlanStep where
  step : String
  rationale : String
  priority : String
  deriving DecidableEq

/-- Issue entry of the auditor's fallback analysis. -/
structure FallbackIssue where
  line : Nat
  type : String
  message : String
  priority : String
  deriving DecidableEq

/-- An auditor analysis (parsed JSON or fallback-synthesized). -/
structure Analysis where
  status : String
  issues : List FallbackIssue
  refactoring_plan : List PlanStep
  summary : String
  total_issues : Nat
  deriving DecidableEq

/-- Result dictionary of `AuditorAgent.analyze_file` /
`analyze_file_with_fallback`. -/
structure AuditorResult where
  success : Bool
  analysis : Option Analysis
  used_fallback : Bool
  deriving DecidableEq

/-- The per-file pylint summary consumed by the auditor fallback and by
`main.py`: `success`, the optional score, the issue list. -/
structure PylintSummary where
  success : Bool
  score : Option ℚ
  issues : List PyIssue
  deriving DecidableEq

/-- Embeds the issue extraction of `analyze_file_with_fallback` (lines
200–209): the top five pylint issues, priority `high` for errors and
`medium` otherwise. -/
def fallback_issues (pylint : Option PylintSummary) : List FallbackIssue :=
  match pylint with
  | some r =>
      if r.success then
        (r.issues.take 5).map fun i =>
          { line := i.line
            type := i.type
            message := i.message
            priority := if i.type == "error" then "high" else "medium" }
      else []
  | none => []

/-- Embeds the plan synthesis of `analyze_file_with_fallback` (lines
211–228): when the pylint run succeeded, `score = pylint_result.get("score",
10)` reads the `score` key — always present in a `run_pylint` success
dictionary, so the default 10 is dead and a `None` value is read as-is —
and the comparison `score < 8.0` then raises a `TypeError` when the
score is `None`; otherwise a critical syntax step is prepended when the
score is below 8, followed by one step per extracted issue.  The raised
`TypeError` is modelled as `Except.error` and is caught nowhere in the
agent. -/
def fallback_plan (pylint : Option PylintSummary) : Except String (List PlanStep) :=
  let issue_steps := (fallback_issues pylint).map fun i =>
    { step := "Fix " ++ i.type ++ " at line " ++ toString i.line
      rationale := i.message
      priority := i.priority }
  match pylint with
  | some r =>
      if r.success then
        match r.score with
        | none =>
            Except.error "TypeError: not supported between instances of NoneType and float"
        | some s =>
            Except.ok
              ((if s < 8 then
                  [{ step := "Fix syntax errors"
                     rationale := "File has syntax errors preventing analysis"
                     priority := "critical" }]
                else []) ++ issue_steps)
      else Except.ok issue_steps
  | none => Except.ok issue_steps

/-- Embeds `AuditorAgent.analyze_file` as a function of the parsed
response: tagged success when the JSON parse produced an analysis,
tagged failure otherwise. -/
def analyze_file (parsed : Option Analysis) : AuditorResult :=
  match parsed with
  | some a => { success := true, analysis := some a, used_fallback := false }
  | none => { success := false, analysis := none, used_fallback := false }

/-- Embeds the fallback analysis constructed at lines 230–238; a
`TypeError` raised by the plan synthesis propagates. -/
def minimal_analysis (pylint : Option PylintSummary) : Except String Analysis :=
  match fallback_plan pylint with
  | Except.error e => Except.error e
  | Except.ok plan =>
      Except.ok
        { status := "analyzed_with_fallback"
          issues := fallback_issues pylint
          refactoring_plan := plan
          summary := "Analysis generated from pylint results due to LLM parsing failure"
          total_issues := (fallback_issues pylint).length }

/-- Embeds `AuditorAgent.analyze_file_with_fallback`: the standard
analysis when it succeeds, otherwise a success-tagged minimal analysis
synthesized from the pylint result — unless that synthesis raises the
`TypeError` above, which propagates out of the agent uncaught. -/
def analyze_file_with_fallback (parsed : Option Analysis)
    (pylint : Option PylintSummary) : Except String AuditorResult :=
  let result := analyze_file parsed
  if result.success then Except.ok result
  else
    match minimal_analysis pylint with
    | Except.error e => Except.error e
    | Except.ok a =>
        Except.ok { success := true, analysis := some a, used_fallback := true }

/-- Modelled from the spec: a fixer response "parses as raw code with
optional fence markers" only when it is an actual model completion; the
`"ERROR: ..."` sentinel that the LLM wrapper substitutes for a raised
exception is an error report, not raw code. -/
def spec_response_is_raw_code (response : String) : Bool :=
  !(strStartsWith response "ERROR:")

end RefactoringSwarm

namespace RefactoringSwarm

/-- Claim C3, counterexample: the claim requires the fixer's result to
indicate failure whenever the response is not parseable as raw code, but
for the response produced by a failed LLM call — which is not raw code —
`fix_file` reports `success = true` and hands back the unparsed error
text as the fixed code. -/
theorem fix_file_reports_success_on_error_sentinel :
    spec_response_is_raw_code (call_llm (Except.error "API call failed")) = false
    ∧ (fix_file (call_llm (Except.error "API call failed"))).success = true
    ∧ (fix_file (call_llm (Except.error "API call failed"))).fixed_code
        = "ERROR: API call failed" := by
  refine ⟨by decide, rfl, by decide⟩

/-- Claim C3 (amended): the judge tolerates an unparseable response by
returning a tagged failure; the fixer never throws but also never
signals failure — for every response, error sentinels included, it
returns `success = true` with the fence-stripped response text as the
fixed code; and the auditor's fallback returns a success-tagged minimal
analysis whenever its plan synthesis completes, which it does whenever
the pylint result is absent, failed, or carries a present score — but
on a successful pylint result whose score is `None`, the fallback's
`score < 8.0` comparison raises a `TypeError` that propagates to the
caller uncaught. -/
theorem decision_roles_tagged_results :
    (∀ response : String,
        (fix_file response).success = true
        ∧ (fix_file response).fixed_code = strip_code_fences response)
    ∧ ((evaluate_tests none).success = false
        ∧ (evaluate_tests none).error ≠ none
        ∧ should_continue (evaluate_tests none) = true)
    ∧ (∀ (pylint : Option PylintSummary) (a : Analysis),
        minimal_analysis pylint = Except.ok a →
        analyze_file_with_fallback none pylint
          = Except.ok { success := true, analysis := some a, used_fallback := true })
    ∧ (∀ (r : PylintSummary) (s : ℚ) (e : String), r.score = some s →
        minimal_analysis (some r) ≠ Except.error e)
    ∧ (∀ (r : PylintSummary) (e : String), r.success = false →
        minimal_analysis (some r) ≠ Except.error e)
    ∧ (∀ e : String, minimal_analysis none ≠ Except.error e)
    ∧ (∀ r : PylintSummary, r.success = true → r.score = none →
        analyze_file_with_fallback none (some r)
          = Except.error "TypeError: not supported between instances of NoneType and float") := by
  refine ⟨fun response => ⟨rfl, rfl⟩, ⟨rfl, by decide, rfl⟩, ?_, ?_, ?_, ?_, ?_⟩
  · intro pylint a h
    simp [analyze_file_with_fallback, analyze_file, h]
  · intro r s e hsc
    by_cases hs : r.success
    · simp [minimal_analysis, fallback_plan, hsc, hs]
    · simp [minimal_analysis, fallback_plan, hsc, hs]
  · intro r e hs
    simp [minimal_analysis, fallback_plan, hs]
  · intro e
    simp [minimal_analysis, fallback_plan]
  · intro r hs hsc
    simp [analyze_file_with_fallback, analyze_file, minimal_analysis, fallback_plan,
      hs, hsc]

/-- Witness for the amended C3 at concrete inputs: the fixer reports
success on the error sentinel, the auditor fallback returns a
success-tagged analysis on a present score, and raises the `TypeError`
on a successful pylint result whose score is absent. -/
theorem decision_roles_tagged_results_witness :
    (fix_file "ERROR: boom").success = true
    ∧ analyze_file_with_fallback none (some { success := true, score := some 5, issues := [] })
        = Except.ok
            { success := true
              analysis := some
                { status := "analyzed_with_fallback"
                  issues := []
                  refactoring_plan :=
                    [{ step := "Fix syntax errors"
                       rationale := "File has syntax errors preventing analysis"
                       priority := "critical" }]
                  summary := "Analysis generated from pylint results due to LLM parsing failure"
                  total_issues := 0 }
              used_fallback := true }
    ∧ analyze_file_with_fallback none (some { success := true, score := none, issues := [] })
        = Except.error "TypeError: not supported between instances of NoneType and float" := by
  have h := decision_roles_tagged_results
  refine ⟨(h.1 "ERROR: boom").1, ?_, h.2.2.2.2.2.2 ⟨true, none, []⟩ rfl rfl⟩
  exact h.2.2.1 (some ⟨true, some 5, []⟩) _ rfl

end RefactoringSwarm

namespace RefactoringSwarm

/-! ## Sandboxed file store (`ToolsmithAPI.py`, C2/C9)

The sandbox filesystem is modelled as two association lists keyed by
path string: the source files and the contents of the `.backups`
directory.  `shutil.copy2` to an existing backup path overwrites it, so
updating the association list goes through `setEntry`. -/

/-- Python `dict`-like lookup over an association list. -/
def lookupEntry (l : List (String × String)) (k : String) : Option String :=
  match l with
  | [] => none
  | kv :: rest => if kv.1 == k then some kv.2 else lookupEntry rest k

/-- Overwrite-or-append update of an association list (the effect of
writing file content at a path). -/
def setEntry (l : List (String × String)) (k v : String) : List (String × String) :=
  match l with
  | [] => [(k, v)]
  | kv :: rest => if kv.1 == k then (k, v) :: rest else kv :: setEntry rest k v

/-- The sandbox state: source files and the reserved backup store. -/
structure SandboxFS where
  files : List (String × String)
  backups : List (String × String)
  deriving DecidableEq

/-- Backup file name built by `_create_backup` from the target path and
the second-granularity timestamp (the `stem`/`suffix` split of the path
is abstracted into the path string itself). -/
def backup_name (path timestamp : String) : String :=
  path ++ "_" ++ timestamp

/-- Embeds `ToolsmithAPI._create_backup` (lines 66–82) in the case where
the target exists: copy the current content of `path` to the timestamped
backup path, returning the backup path. -/
def create_backup (fs : SandboxFS) (path timestamp : String) (content : String) :
    String × SandboxFS :=
  let bname := backup_name path timestamp
  (bname, { fs with backups := setEntry fs.backups bname content })

/-- Result dictionary of `ToolsmithAPI.write_file`. -/
structure WriteResult where
  success : Bool
  path : Option String
  backup_path : Option String
  error : Option String
  deriving DecidableEq

/-- Environment of one `write_file` call: the outcome of
`_validate_path` on the argument, the timestamp `_create_backup` would
use, and whether the backup copy and the content write raise. -/
structure WriteEnv where
  validate : Except String String
  timestamp : String
  backupRaises : Bool
  writeRaises : Bool

/-- The final write step of `write_file` (lines 144–153): the `open(...,
'w')`/`f.write` pair either raises — caught by the generic handler,
which reports `backup_path: None` even when a backup was made — or
replaces the file's content. -/
def write_step (fs : SandboxFS) (env : WriteEnv) (path content : String)
    (backup_path : Option String) : SandboxFS × WriteResult :=
  if env.writeRaises then
    (fs, { success := false, path := none, backup_path := none
           error := some "Write error: write failed" })
  else
    ({ fs with files := setEntry fs.files path content },
     { success := true, path := some path, backup_path := backup_path, error := none })

/-- Embeds `ToolsmithAPI.write_file` (lines 121–157).  Control flow of
the source: validate the path (a `SecurityError` is caught and returned
as a failure dictionary); if a backup is requested and the target
exists, run `_create_backup` first — if the copy raises, the generic
handler returns a failure and the write never happens; then write the
content. -/
def write_file (fs : SandboxFS) (env : WriteEnv) (_file_path content : String)
    (createBackup : Bool) : SandboxFS × WriteResult :=
  match env.validate with
  | Except.error e =>
      (fs, { success := false, path := none, backup_path := none, error := some e })
  | Except.ok path =>
      match createBackup, lookupEntry fs.files path with
      | true, some old =>
          if env.backupRaises then
            (fs, { success := false, path := none, backup_path := none
                   error := some "Write error: backup copy failed" })
          else
            let backed := create_backup fs path env.timestamp old
            write_step backed.2 env path content (some backed.1)
      | true, none => write_step fs env path content none
      | false, _ => write_step fs env path content none

/-! Small facts about `lookupEntry`/`setEntry` shared by the write/read
theorems. -/

theorem lookupEntry_setEntry_self (l : List (String × String)) (k v : String) :
    lookupEntry (setEntry l k v) k = some v := by
  induction l with
  | nil => simp [setEntry, lookupEntry]
  | cons kv rest ih =>
      by_cases h : kv.1 == k
      · simp [setEntry, h, lookupEntry]
      · simp [setEntry, h, lookupEntry, ih]

theorem lookupEntry_setEntry_ne (l : List (String × String)) (k k' v : String)
    (h : k' ≠ k) : lookupEntry (setEntry l k v) k' = lookupEntry l k' :=  by
  induction l with
  | nil =>
      simp only [setEntry, lookupEntry]
      rw [if_neg (by simp only [beq_iff_eq]; exact fun hh => h hh.symm)]
  | cons kv rest ih =>
      by_cases hk : kv.1 == k
      · have : ¬ ((k : String) == k') = true := by
          simp only [beq_iff_eq]
          exact fun hh => h hh.symm
        simp only [setEntry, hk, if_pos, lookupEntry]
        rw [if_neg this, if_neg]
        rw [beq_iff_eq] at hk
        subst hk
        exact this
      · simp [setEntry, hk, lookupEntry, ih]

theorem setEntry_length_of_not_mem (l : List (String × String)) (k v : String)
    (h : lookupEntry l k = none) :
    (setEntry l k v).length = l.length + 1 := by
  induction l with
  | nil => simp [setEntry]
  | cons kv rest ih =>
      simp only [lookupEntry] at h
      by_cases hk : kv.1 == k
      · rw [if_pos hk] at h
        cases h
      · rw [if_neg hk] at h
        simp [setEntry, hk, ih h]

end RefactoringSwarm

namespace RefactoringSwarm

/-- Claim C2: writing to an existing file with backup requested first
copies the pre-write content to exactly one new backup artifact, and
only then changes the target: (a) if the backup copy raises, the write
is aborted with a failure result and the whole state — target included —
is unchanged; (b) if nothing raises, the backup store gains exactly one
entry, holding the pre-write content under a fresh timestamped name,
every other backup is untouched, and the target now holds the new
content; (c) if the backup succeeds and the write itself then raises,
the backup is already complete while the target still holds the
pre-write content — the backup step finishes before the target changes. -/
theorem write_file_backup_discipline (fs : SandboxFS) (env : WriteEnv)
    (path content old : String)
    (hv : env.validate = Except.ok path)
    (hex : lookupEntry fs.files path = some old)
    (hfresh : lookupEntry fs.backups (backup_name path env.timestamp) = none) :
    (env.backupRaises = true →
      write_file fs env path content true
        = (fs, { success := false, path := none, backup_path := none
                 error := some "Write error: backup copy failed" }))
    ∧ (env.backupRaises = false → env.writeRaises = false →
        (write_file fs env path content true).2.success = true
        ∧ lookupEntry (write_file fs env path content true).1.files path = some content
        ∧ lookupEntry (write_file fs env path content true).1.backups
            (backup_name path env.timestamp) = some old
        ∧ (write_file fs env path content true).1.backups.length
            = fs.backups.length + 1
        ∧ (∀ b, b ≠ backup_name path env.timestamp →
            lookupEntry (write_file fs env path content true).1.backups b
              = lookupEntry fs.backups b))
    ∧ (env.backupRaises = false → env.writeRaises = true →
        (write_file fs env path content true).2.success = false
        ∧ lookupEntry (write_file fs env path content true).1.files path = some old
        ∧ lookupEntry (write_file fs env path content true).1.backups
            (backup_name path env.timestamp) = some old) := by
  refine ⟨fun hb1 => ?_, fun hb hw => ?_, fun hb hw => ?_⟩
  · simp [write_file, hv, hex, hb1]
  · refine ⟨?_, ?_, ?_, ?_, ?_⟩
    · simp [write_file, hv, hex, hb, write_step, hw, create_backup]
    · simp [write_file, hv, hex, hb, write_step, hw, create_backup,
        lookupEntry_setEntry_self]
    · simp [write_file, hv, hex, hb, write_step, hw, create_backup,
        lookupEntry_setEntry_self]
    · simp [write_file, hv, hex, hb, write_step, hw, create_backup,
        setEntry_length_of_not_mem _ _ _ hfresh]
    · intro b hbne
      simp [write_file, hv, hex, hb, write_step, hw, create_backup,
        lookupEntry_setEntry_ne _ _ _ _ hbne]
  · refine ⟨?_, ?_, ?_⟩
    · simp [write_file, hv, hex, hb, write_step, hw, create_backup]
    · simp [write_file, hv, hex, hb, write_step, hw, create_backup, hex]
    · simp [write_file, hv, hex, hb, write_step, hw, create_backup,
        lookupEntry_setEntry_self]

/-- Witness for C2 at a concrete state: one file `/sb/a.py` with content
`"old"`, empty backup store, fresh timestamp, no raised exceptions. -/
theorem write_file_backup_discipline_witness :
    (write_file ⟨[("/sb/a.py", "old")], []⟩
        ⟨Except.ok "/sb/a.py", "20240101_120000", false, false⟩
        "/sb/a.py" "new" true).2.success = true
    ∧ lookupEntry (write_file ⟨[("/sb/a.py", "old")], []⟩
        ⟨Except.ok "/sb/a.py", "20240101_120000", false, false⟩
        "/sb/a.py" "new" true).1.files "/sb/a.py" = some "new"
    ∧ lookupEntry (write_file ⟨[("/sb/a.py", "old")], []⟩
        ⟨Except.ok "/sb/a.py", "20240101_120000", false, false⟩
        "/sb/a.py" "new" true).1.backups
        (backup_name "/sb/a.py" "20240101_120000") = some "old" := by
  have h := write_file_backup_discipline ⟨[("/sb/a.py", "old")], []⟩
    ⟨Except.ok "/sb/a.py", "20240101_120000", false, false⟩
    "/sb/a.py" "new" "old" rfl (by decide) (by decide)
  exact ⟨(h.2.1 rfl rfl).1, (h.2.1 rfl rfl).2.1, (h.2.1 rfl rfl).2.2.1⟩

end RefactoringSwarm

namespace RefactoringSwarm

/-! ## Test-runner adapter: `_parse_pytest_output` (C6)

`ToolsmithAPI.py` lines 369–408.  Each statistic is extracted by
`re.search(r'(\d+) <word>', output)`: the leftmost occurrence of a
nonempty digit run immediately followed by the literal pattern.  Because
the pattern begins with a non-digit, backtracking inside `\d+` can never
produce a match that a shorter digit prefix misses, so the regex search
is exactly: scan left to right, and at the first position where the
maximal digit run is nonempty and followed by the literal, return that
run's value. -/

/-- Numeric value of a digit run (the `int(...)` of the captured group). -/
def digitsVal (ds : List Char) : Nat :=
  ds.foldl (fun a c => a * 10 + (c.toNat - '0'.toNat)) 0

/-- Try to match `(\d+)pat` at the head of `l`. -/
def matchNumAt (pat l : List Char) : Option Nat :=
  let ds := l.takeWhile Char.isDigit
  if ds.isEmpty then none
  else if pat.isPrefixOf (l.drop ds.length) then some (digitsVal ds)
  else none

/-- Leftmost `re.search(r'(\d+)pat', s)`, returning the captured value. -/
def searchNumBefore (pat : List Char) : List Char → Option Nat
  | [] => none
  | c :: rest =>
      match matchNumAt pat (c :: rest) with
      | some n => some n
      | none => searchNumBefore pat rest

/-- `re.search(r'(\d+)' + pat, output)` with the value of the captured
group, `none` when the pattern does not occur. -/
def reSearchNum (pat output : String) : Option Nat :=
  searchNumBefore pat.data output.data

/-- The statistics dictionary built by `_parse_pytest_output`. -/
structure PytestStats where
  passed : Nat
  failed : Nat
  errors : Nat
  skipped : Nat
  total : Nat
  deriving DecidableEq

/-- Embeds `ToolsmithAPI._parse_pytest_output`: the four counts are
searched for independently (`0` when absent) and
`total = passed + failed + errors`, skipped excluded. -/
def parse_pytest_output (output : String) : PytestStats :=
  let passed := (reSearchNum " passed" output).getD 0
  let failed := (reSearchNum " failed" output).getD 0
  let errors := (reSearchNum " error" output).getD 0
  let skipped := (reSearchNum " skipped" output).getD 0
  { passed := passed, failed := failed, errors := errors, skipped := skipped
    total := passed + failed + errors }

end RefactoringSwarm

namespace RefactoringSwarm

/-- Claim C6: each of the four statistics is extracted independently by
pattern-matching its summary phrase anywhere in the output, a missing
phrase counts as 0, and the total is `passed + failed + errors` with
skipped excluded; on `"3 passed, 1 failed in 0.12s"` the statistics are
`{passed := 3, failed := 1, errors := 0, skipped := 0, total := 4}`, and
a summary with a skipped count keeps it out of the total. -/
theorem parse_pytest_output_stats :
    parse_pytest_output "3 passed, 1 failed in 0.12s"
      = { passed := 3, failed := 1, errors := 0, skipped := 0, total := 4 }
    ∧ (∀ output : String,
        (parse_pytest_output output).total
          = (parse_pytest_output output).passed
            + (parse_pytest_output output).failed
            + (parse_pytest_output output).errors)
    ∧ parse_pytest_output "no tests ran in 0.01s"
      = { passed := 0, failed := 0, errors := 0, skipped := 0, total := 0 }
    ∧ parse_pytest_output "2 passed, 3 skipped in 0.40s"
      = { passed := 2, failed := 0, errors := 0, skipped := 3, total := 2 } := by
  refine ⟨by decide, fun output => rfl, by decide, by decide⟩

end RefactoringSwarm

namespace RefactoringSwarm

/-! ## Static-analyzer adapter: directory average (C7)

`ToolsmithAPI.run_pylint_on_directory` (lines 276–309) iterates the
per-file pylint results, accumulating `total_score` and
`analyzed_count` over exactly the files whose run succeeded with a
non-absent score, and divides at the end, returning 0 when nothing was
counted.  Scores are modelled as rationals. -/

/-- The accumulation loop of `run_pylint_on_directory` (lines 294–299),
threading `(total_score, analyzed_count)`. -/
def pylint_dir_fold (results : List PylintSummary) : ℚ × Nat :=
  results.foldl
    (fun acc r =>
      match r.success, r.score with
      | true, some s => (acc.1 + s, acc.2 + 1)
      | _, _ => acc)
    (0, 0)

/-- Embeds the `average_score` computed by `run_pylint_on_directory`
(line 301): `total_score / analyzed_count if analyzed_count > 0 else 0`. -/
def average_score (results : List PylintSummary) : ℚ :=
  let acc := pylint_dir_fold results
  if acc.2 > 0 then acc.1 / acc.2 else 0

/-- Modelled from the spec (for comparison with `average_score`): the
arithmetic mean of the scores of exactly the files that produced a
non-absent score, with denominator the count of such files, and 0 by
convention when there are none. -/
def spec_present_scores (results : List PylintSummary) : List ℚ :=
  results.filterMap fun r => if r.success then r.score else none

/-- Modelled from the spec: the directory-level mean. -/
def spec_mean_score (results : List PylintSummary) : ℚ :=
  if spec_present_scores results = [] then 0
  else (spec_present_scores results).sum / (spec_present_scores results).length

theorem pylint_dir_fold_eq (results : List PylintSummary) :
    pylint_dir_fold results
      = ((spec_present_scores results).sum, (spec_present_scores results).length) := by
  suffices h : ∀ (t : ℚ) (n : Nat),
      results.foldl
        (fun acc r =>
          match r.success, r.score with
          | true, some s => (acc.1 + s, acc.2 + 1)
          | _, _ => acc)
        (t, n)
      = (t + (spec_present_scores results).sum,
         n + (spec_present_scores results).length) by
    have := h 0 0
    simpa [pylint_dir_fold] using this
  induction results with
  | nil => intro t n; simp [spec_present_scores]
  | cons r rest ih =>
      intro t n
      match hs : r.success, hsc : r.score with
      | true, some s =>
          have hsp : spec_present_scores (r :: rest) = s :: spec_present_scores rest := by
            simp [spec_present_scores, hs, hsc]
          simp only [List.foldl_cons, hs, hsc]
          rw [ih, hsp]
          simp only [List.sum_cons, List.length_cons, Prod.mk.injEq]
          constructor
          · ring
          · omega
      | true, none =>
          have hsp : spec_present_scores (r :: rest) = spec_present_scores rest := by
            simp [spec_present_scores, hs, hsc]
          simp only [List.foldl_cons, hs, hsc]
          rw [ih, hsp]
      | false, some s =>
          have hsp : spec_present_scores (r :: rest) = spec_present_scores rest := by
            simp [spec_present_scores, hs, hsc]
          simp only [List.foldl_cons, hs, hsc]
          rw [ih, hsp]
      | false, none =>
          have hsp : spec_present_scores (r :: rest) = spec_present_scores rest := by
            simp [spec_present_scores, hs, hsc]
          simp only [List.foldl_cons, hs, hsc]
          rw [ih, hsp]

end RefactoringSwarm

namespace RefactoringSwarm

/-- Claim C7: the directory-level average equals the arithmetic mean of
the scores of exactly those analyzed files with a non-absent score (the
denominator excludes absent-score files), is 0 by convention when no
file produced a score, and on scores `[6, 8]` plus one absent-score file
equals 7. -/
theorem average_score_is_mean_of_present :
    (∀ results : List PylintSummary, average_score results = spec_mean_score results)
    ∧ average_score [⟨true, some 6, []⟩, ⟨true, some 8, []⟩, ⟨true, none, []⟩] = 7
    ∧ average_score [] = 0 := by
  refine ⟨fun results => ?_, ?_, ?_⟩
  · simp only [average_score, spec_mean_score, pylint_dir_fold_eq]
    by_cases h : spec_present_scores results = []
    · simp [h]
    · simp [h, List.length_pos.mpr h]
  · have hsp : spec_present_scores
        [⟨true, some 6, []⟩, ⟨true, some 8, []⟩, ⟨true, none, []⟩] = [6, 8] := by
      simp [spec_present_scores]
    simp only [average_score, pylint_dir_fold_eq, hsp]
    norm_num
  · simp only [average_score, pylint_dir_fold_eq]
    norm_num [spec_present_scores]

end RefactoringSwarm

namespace RefactoringSwarm

/-! ## File enumeration: `list_python_files` (C8/C9)

`ToolsmithAPI.py` lines 159–197.  `search_path.rglob("*.py")` is an
operating-system effect; its raw result — every path under the search
path whose final component matches `*.py`, as a list of path-component
lists (`py_file.parts`) — is supplied in the environment as the
directory `tree`, with the glob filter applied by the embedding. -/

/-- Result dictionary of `list_python_files`; each returned file is its
component list (`py_file.parts`). -/
structure ListFilesResult where
  success : Bool
  files : List (List String)
  count : Nat
  error : Option String
  deriving DecidableEq

/-- Environment of one `list_python_files` call. -/
structure ListFilesEnv where
  /-- The `directory` argument (`none` means the sandbox root). -/
  directory : Option String
  /-- Outcome of `_validate_path` on `directory` when given. -/
  validate : Except String String
  /-- Whether the search path exists. -/
  dirExists : Bool
  /-- All paths below the search path, as component lists. -/
  tree : List (List String)
  /-- Message of an exception raised while iterating (e.g. by `stat()`),
  `none` when nothing raises. -/
  iterRaises : Option String

/-- The `rglob("*.py")` filter: paths whose final component ends in
`.py`. -/
def rglob_py (tree : List (List String)) : List (List String) :=
  tree.filter fun p =>
    match p.getLast? with
    | some name => strEndsWith name ".py"
    | none => false

/-- Embeds `ToolsmithAPI.list_python_files`: validate the directory when
given, fail when the search path is missing, then keep every `*.py`
path whose components do not contain `.backups`; any raised exception is
caught and returned as a failure dictionary. -/
def list_python_files (env : ListFilesEnv) : ListFilesResult :=
  let validated : Except String String :=
    match env.directory with
    | some _ => env.validate
    | none => Except.ok ""
  match validated with
  | Except.error e => { success := false, files := [], count := 0, error := some e }
  | Except.ok _ =>
      if ¬ env.dirExists then
        { success := false, files := [], count := 0, error := some "Directory not found" }
      else
        match env.iterRaises with
        | some e =>
            { success := false, files := [], count := 0
              error := some ("List error: " ++ e) }
        | none =>
            let python_files := (rglob_py env.tree).filter fun p => ¬ ".backups" ∈ p
            { success := true, files := python_files, count := python_files.length
              error := none }

end RefactoringSwarm

namespace RefactoringSwarm

/-- Claim C8: file enumeration never returns a path under the reserved
backup subdirectory — every file in a successful result has no path
component equal to `.backups` (and is a `*.py` path from the searched
tree). -/
theorem list_python_files_skips_backups (env : ListFilesEnv) (p : List String)
    (hp : p ∈ (list_python_files env).files) :
    ".backups" ∉ p ∧ p ∈ env.tree := by
  unfold list_python_files at hp
  rcases henv : (match env.directory with
    | some _ => env.validate
    | none => Except.ok "") with e | v
  · rw [henv] at hp
    simp at hp
  · rw [henv] at hp
    by_cases hd : env.dirExists
    · simp only [hd, not_true, if_neg, if_false] at hp
      rcases hit : env.iterRaises with _ | e
      · rw [hit] at hp
        simp only [List.mem_filter, decide_eq_true_eq, rglob_py] at hp
        obtain ⟨⟨hmem, _⟩, hnb⟩ := hp
        exact ⟨hnb, hmem⟩
      · rw [hit] at hp
        simp at hp
    · simp [hd] at hp

/-- Witness for C8: a tree holding a backup copy, a test file inside
`.backups`, and one real source file. -/
theorem list_python_files_skips_backups_witness :
    (["sb", "buggy.py"] ∈ (list_python_files
        ⟨none, Except.ok "", true,
          [["sb", ".backups", "buggy_20240101.py"], ["sb", "buggy.py"], ["sb", "notes.txt"]],
          none⟩).files)
    ∧ ".backups" ∉ (["sb", "buggy.py"] : List String)
    ∧ ["sb", "buggy.py"] ∈ ([["sb", ".backups", "buggy_20240101.py"], ["sb", "buggy.py"],
        ["sb", "notes.txt"]] : List (List String)) := by
  have hp : (["sb", "buggy.py"] : List String) ∈ (list_python_files
      ⟨none, Except.ok "", true,
        [["sb", ".backups", "buggy_20240101.py"], ["sb", "buggy.py"], ["sb", "notes.txt"]],
        none⟩).files := by decide
  have h := list_python_files_skips_backups
    ⟨none, Except.ok "", true,
      [["sb", ".backups", "buggy_20240101.py"], ["sb", "buggy.py"], ["sb", "notes.txt"]],
      none⟩ ["sb", "buggy.py"] hp
  exact ⟨hp, h.1, h.2⟩

end RefactoringSwarm

namespace RefactoringSwarm

/-! ## Remaining tool operations and the error-handling layer (C9)

Each public operation of `ToolsmithAPI` wraps its body in `try/except`
clauses that convert `SecurityError`, `subprocess.TimeoutExpired` and
any other exception into a `success=False` dictionary carrying an error
message.  Raised exceptions are environment inputs; the embedded
operations are total functions into result records. -/

/-- A subprocess failure: the call timed out or raised something else. -/
inductive ToolFail where
  | timeout
  | other (msg : String)
  deriving DecidableEq

/-- Result dictionary of `ToolsmithAPI.read_file`. -/
structure ReadResult where
  success : Bool
  content : Option String
  error : Option String
  path : Option String
  size : Option Nat
  deriving DecidableEq

/-- Environment of one `read_file` call. -/
structure ReadEnv where
  /-- The `file_path` argument (used in the not-found message). -/
  file_path : String
  /-- Outcome of `_validate_path`. -/
  validate : Except String String
  /-- Whether the validated path exists. -/
  fileExists : Bool
  /-- The file content, or the message of an exception raised by
  `open`/`read`. -/
  readOutcome : Except String String

/-- Embeds `ToolsmithAPI.read_file` (lines 86–119). -/
def read_file (env : ReadEnv) : ReadResult :=
  match env.validate with
  | Except.error e =>
      { success := false, content := none, error := some e, path := none, size := none }
  | Except.ok p =>
      if ¬ env.fileExists then
        { success := false, content := none
          error := some ("File not found: " ++ env.file_path), path := none, size := none }
      else
        match env.readOutcome with
        | Except.error e =>
            { success := false, content := none, error := some ("Read error: " ++ e)
              path := none, size := none }
        | Except.ok content =>
            { success := true, content := some content, error := none
              path := some p, size := some content.length }

/-- What the pylint subprocess and its output parsing produced: the
issue list from the JSON on stdout (`[]` both when stdout is empty and
when the JSON fails to decode, since `json.loads` failure is swallowed)
and the score extracted from stderr (`none` when the rating line is
absent). -/
structure PylintRaw where
  issues : List PyIssue
  score : Option ℚ
  deriving DecidableEq

/-- Environment of one `run_pylint` call. -/
structure PylintEnv where
  validate : Except String String
  fileExists : Bool
  sub : Except ToolFail PylintRaw

/-- Result dictionary of `ToolsmithAPI.run_pylint`; the `categorized`
dictionary is the four severity-filtered sublists. -/
structure PylintResult where
  success : Bool
  file : Option String
  score : Option ℚ
  issues : List PyIssue
  cat_errors : List PyIssue
  cat_warnings : List PyIssue
  cat_conventions : List PyIssue
  cat_refactors : List PyIssue
  total_issues : Nat
  error : Option String
  deriving DecidableEq

/-- An all-empty failure payload for `run_pylint` result dictionaries. -/
def pylintFailure (msg : String) : PylintResult :=
  { success := false, file := none, score := none, issues := [], cat_errors := []
    cat_warnings := [], cat_conventions := [], cat_refactors := []
    total_issues := 0, error := some msg }

/-- Embeds `ToolsmithAPI.run_pylint` (lines 201–258). -/
def run_pylint (env : PylintEnv) : PylintResult :=
  match env.validate with
  | Except.error e => pylintFailure e
  | Except.ok p =>
      if ¬ env.fileExists then pylintFailure "File not found"
      else
        match env.sub with
        | Except.error ToolFail.timeout => pylintFailure "Pylint execution timeout"
        | Except.error (ToolFail.other e) => pylintFailure ("Pylint error: " ++ e)
        | Except.ok raw =>
            { success := true
              file := some p
              score := raw.score
              issues := raw.issues
              cat_errors := raw.issues.filter fun i => i.type == "error"
              cat_warnings := raw.issues.filter fun i => i.type == "warning"
              cat_conventions := raw.issues.filter fun i => i.type == "convention"
              cat_refactors := raw.issues.filter fun i => i.type == "refactor"
              total_issues := raw.issues.length
              error := none }

/-- Raw outcome of the pytest subprocess. -/
structure PytestRaw where
  stdout : String
  stderr : String
  returncode : Int
  deriving DecidableEq

/-- Environment of one `run_pytest` call. -/
structure PytestEnv where
  /-- Outcome of `_validate_path` on the target (`Except.ok` directly
  for the sandbox-root default). -/
  validate : Except String String
  targetExists : Bool
  sub : Except ToolFail PytestRaw

/-- Result dictionary of `ToolsmithAPI.run_pytest`; the `passed` key is
absent from the target-not-found dictionary (`none` here). -/
structure PytestResult where
  success : Bool
  passed : Option Bool
  output : Option String
  statistics : Option PytestStats
  exit_code : Option Int
  error : Option String
  deriving DecidableEq

/-- Embeds `ToolsmithAPI.run_pytest` (lines 313–367): combine stdout
and stderr, derive `passed` from the exit status, extract the
statistics with `_parse_pytest_output`; timeouts and other exceptions
become failure dictionaries. -/
def run_pytest (env : PytestEnv) : PytestResult :=
  match env.validate with
  | Except.error e =>
      { success := false, passed := some false, output := none, statistics := none
        exit_code := none, error := some e }
  | Except.ok _ =>
      if ¬ env.targetExists then
        { success := false, passed := none, output := none, statistics := none
          exit_code := none, error := some "Test target not found" }
      else
        match env.sub with
        | Except.error ToolFail.timeout =>
            { success := false, passed := some false, output := none, statistics := none
              exit_code := none, error := some "Pytest execution timeout" }
        | Except.error (ToolFail.other e) =>
            { success := false, passed := some false, output := none, statistics := none
              exit_code := none, error := some ("Pytest error: " ++ e) }
        | Except.ok raw =>
            let output := raw.stdout ++ raw.stderr
            let passed := raw.returncode == 0
            { success := true
              passed := some passed
              output := some output
              statistics := some (parse_pytest_output output)
              exit_code := some raw.returncode
              error := if passed then none else some "Tests failed" }

/-- Outcome of `ast.parse` on the file content: success, a
`SyntaxError` with its message/line/offset, or some other raised
exception (e.g. `ValueError` on a null byte). -/
inductive AstParseOutcome where
  | ok
  | synError (message : String) (line : Nat) (offset : Nat)
  | raised (msg : String)
  deriving DecidableEq

/-- The structured error payload of a syntax-invalid result. -/
structure SynErrInfo where
  type : String
  message : String
  line : Nat
  offset : Nat
  deriving DecidableEq

/-- Result dictionary of `validate_python_syntax`: `error` is either a
message string (failure paths and the read pass-through) or the
structured syntax-error payload; the read-failure pass-through returns
the read dictionary itself, which carries no `valid` key (`none`). -/
structure ValidateResult where
  success : Bool
  valid : Option Bool
  error : Option (Sum String SynErrInfo)
  deriving DecidableEq

/-- Environment of one `validate_python_syntax` call: its own
`_validate_path` outcome, the environment of the nested `read_file`
call, and the `ast.parse` outcome. -/
structure ValidateSynEnv where
  validate : Except String String
  read : ReadEnv
  parse : AstParseOutcome

/-- Embeds `ToolsmithAPI.validate_python_syntax` (lines 412–451): on a
read failure the read dictionary is returned unchanged; a `SyntaxError`
from `ast.parse` is a `success=True, valid=False` result with the
structured payload; a `SecurityError` or any other exception becomes a
failure dictionary. -/
def validate_python_code (env : ValidateSynEnv) : ValidateResult :=
  match env.validate with
  | Except.error e => { success := false, valid := some false, error := some (Sum.inl e) }
  | Except.ok _ =>
      let read_result := read_file env.read
      if ¬ read_result.success then
        { success := false, valid := none, error := read_result.error.map Sum.inl }
      else
        match env.parse with
        | AstParseOutcome.ok => { success := true, valid := some true, error := none }
        | AstParseOutcome.synError m l o =>
            { success := true, valid := some false
              error := some (Sum.inr { type := "SyntaxError", message := m, line := l, offset := o }) }
        | AstParseOutcome.raised m =>
            { success := false, valid := some false
              error := some (Sum.inl ("Validation error: " ++ m)) }

/-- Result dictionary of `restore_from_backup`. -/
structure RestoreResult where
  success : Bool
  restored_to : Option String
  error : Option String
  deriving DecidableEq

/-- Environment of one `restore_from_backup` call. -/
structure RestoreEnv where
  validateBackup : Except String String
  validateTarget : Except String String
  backupExists : Bool
  /-- Message of an exception raised by `shutil.copy2`, `none` when the
  copy succeeds. -/
  copyRaises : Option String

/-- Embeds `ToolsmithAPI.restore_from_backup` (lines 471–499). -/
def restore_from_backup (env : RestoreEnv) : RestoreResult :=
  match env.validateBackup with
  | Except.error e => { success := false, restored_to := none, error := some e }
  | Except.ok _ =>
      match env.validateTarget with
      | Except.error e => { success := false, restored_to := none, error := some e }
      | Except.ok target =>
          if ¬ env.backupExists then
            { success := false, restored_to := none, error := some "Backup file not found" }
          else
            match env.copyRaises with
            | some e =>
                { success := false, restored_to := none
                  error := some ("Restore error: " ++ e) }
            | none => { success := true, restored_to := some target, error := none }

end RefactoringSwarm

namespace RefactoringSwarm

/-- A failed `read_file` always carries an error message. -/
theorem read_file_error_of_failure (env : ReadEnv) :
    (read_file env).success = false → ∃ msg, (read_file env).error = some msg := by
  unfold read_file
  cases hv : env.validate with
  | error e => intro _; exact ⟨e, rfl⟩
  | ok p =>
      by_cases hex : env.fileExists
      · cases hr : env.readOutcome with
        | error e => simp [hex]
        | ok c => simp [hex]
      · simp [hex]

end RefactoringSwarm

namespace RefactoringSwarm

/-- Claim C9: every public file-store and tool-adapter operation is a
total function into a result record with a Boolean `success` field, and
every raised exception — sandbox `SecurityError`s, subprocess timeouts
and any other internal exception — is converted into a `success=False`
result carrying an error message instead of propagating to the caller. -/
theorem tool_ops_catch_exceptions :
    (∀ (env : ReadEnv) (e : String), env.validate = Except.error e →
        (read_file env).success = false ∧ (read_file env).error ≠ none)
    ∧ (∀ (env : ReadEnv) (e : String), env.readOutcome = Except.error e →
        (read_file env).success = false ∧ (read_file env).error ≠ none)
    ∧ (∀ (fs : SandboxFS) (env : WriteEnv) (p c : String) (cb : Bool) (e : String),
        env.validate = Except.error e →
        (write_file fs env p c cb).2.success = false
        ∧ (write_file fs env p c cb).2.error ≠ none)
    ∧ (∀ (fs : SandboxFS) (env : WriteEnv) (p c : String) (cb : Bool),
        env.writeRaises = true →
        (write_file fs env p c cb).2.success = false
        ∧ (write_file fs env p c cb).2.error ≠ none)
    ∧ (∀ (fs : SandboxFS) (env : WriteEnv) (p c old : String),
        env.validate = Except.ok p → lookupEntry fs.files p = some old →
        env.backupRaises = true →
        (write_file fs env p c true).2.success = false
        ∧ (write_file fs env p c true).2.error ≠ none)
    ∧ (∀ (env : ListFilesEnv) (d e : String), env.directory = some d →
        env.validate = Except.error e →
        (list_python_files env).success = false ∧ (list_python_files env).error ≠ none)
    ∧ (∀ (env : ListFilesEnv) (e : String), env.iterRaises = some e →
        (list_python_files env).success = false ∧ (list_python_files env).error ≠ none)
    ∧ (∀ (env : PylintEnv) (e : String), env.validate = Except.error e →
        (run_pylint env).success = false ∧ (run_pylint env).error ≠ none)
    ∧ (∀ (env : PylintEnv) (f : ToolFail), env.sub = Except.error f →
        (run_pylint env).success = false ∧ (run_pylint env).error ≠ none)
    ∧ (∀ (env : PytestEnv) (e : String), env.validate = Except.error e →
        (run_pytest env).success = false ∧ (run_pytest env).error ≠ none)
    ∧ (∀ (env : PytestEnv) (f : ToolFail), env.sub = Except.error f →
        (run_pytest env).success = false ∧ (run_pytest env).error ≠ none)
    ∧ (∀ (env : ValidateSynEnv) (e : String), env.validate = Except.error e →
        (validate_python_code env).success = false
        ∧ (validate_python_code env).error ≠ none)
    ∧ (∀ (env : ValidateSynEnv) (m : String), env.parse = AstParseOutcome.raised m →
        (validate_python_code env).success = false
        ∧ (validate_python_code env).error ≠ none)
    ∧ (∀ (env : RestoreEnv) (e : String), env.validateBackup = Except.error e →
        (restore_from_backup env).success = false
        ∧ (restore_from_backup env).error ≠ none)
    ∧ (∀ (env : RestoreEnv) (e : String), env.copyRaises = some e →
        (restore_from_backup env).success = false
        ∧ (restore_from_backup env).error ≠ none) := by
  refine ⟨?_, ?_, ?_, ?_, ?_, ?_, ?_, ?_, ?_, ?_, ?_, ?_, ?_, ?_, ?_⟩
  · intro env e h
    unfold read_file
    rw [h]
    simp
  · intro env e h
    unfold read_file
    cases hv : env.validate with
    | error e2 => simp
    | ok p =>
        by_cases hex : env.fileExists
        · rw [h]
          simp [hex]
        · simp [hex]
  · intro fs env p c cb e h
    unfold write_file
    rw [h]
    simp
  · intro fs env p c cb h
    unfold write_file
    cases hv : env.validate with
    | error e2 => simp
    | ok q =>
        cases cb <;> cases hl : lookupEntry fs.files q <;>
          cases hb : env.backupRaises <;>
          simp [write_step, h, create_backup, hl]
  · intro fs env p c old hv hl hb
    unfold write_file
    simp [hv, hl, hb]
  · intro env d e hd h
    unfold list_python_files
    rw [hd, h]
    simp
  · intro env e h
    unfold list_python_files
    cases hd : env.directory with
    | none =>
        by_cases hex : env.dirExists
        · rw [h]
          simp [hex]
        · simp [hex]
    | some d =>
        cases hv : env.validate with
        | error e2 => simp
        | ok q =>
            by_cases hex : env.dirExists
            · rw [h]
              simp [hex]
            · simp [hex]
  · intro env e h
    unfold run_pylint
    rw [h]
    simp [pylintFailure]
  · intro env f h
    unfold run_pylint
    cases hv : env.validate with
    | error e2 => simp [pylintFailure]
    | ok q =>
        by_cases hex : env.fileExists
        · rw [h]
          cases f <;> simp [hex, pylintFailure]
        · simp [hex, pylintFailure]
  · intro env e h
    unfold run_pytest
    rw [h]
    simp
  · intro env f h
    unfold run_pytest
    cases hv : env.validate with
    | error e2 => simp
    | ok q =>
        by_cases hex : env.targetExists
        · rw [h]
          cases f <;> simp [hex]
        · simp [hex]
  · intro env e h
    unfold validate_python_code
    rw [h]
    simp
  · intro env m h
    unfold validate_python_code
    cases hv : env.validate with
    | error e2 => simp
    | ok q =>
        by_cases hr : (read_file env.read).success = true
        · rw [h]
          simp [hr]
        · have hf : (read_file env.read).success = false := by simpa using hr
          obtain ⟨msg, hmsg⟩ := read_file_error_of_failure env.read hf
          simp [hf, hmsg]
  · intro env e h
    unfold restore_from_backup
    rw [h]
    simp
  · intro env e h
    unfold restore_from_backup
    cases hb : env.validateBackup with
    | error e2 => simp
    | ok q =>
        cases ht : env.validateTarget with
        | error e2 => simp
        | ok t =>
            by_cases hex : env.backupExists
            · rw [h]
              simp [hex]
            · simp [hex]

/-- Witness for C9: concrete environments raising a `SecurityError`
(read), an ordinary exception (write), and a subprocess timeout
(pytest), each converted into a `success=False` result with an error
message. -/
theorem tool_ops_catch_exceptions_witness :
    (read_file ⟨"x.py", Except.error "Access denied: x.py", true, Except.ok "c"⟩).success
        = false
    ∧ (read_file ⟨"x.py", Except.error "Access denied: x.py", true,
        Except.ok "c"⟩).error ≠ none
    ∧ (write_file ⟨[("a.py", "old")], []⟩ ⟨Except.ok "a.py", "ts", false, true⟩
        "a.py" "new" true).2.success = false
    ∧ (run_pytest ⟨Except.ok "/sb", true, Except.error ToolFail.timeout⟩).success = false
    ∧ (run_pytest ⟨Except.ok "/sb", true, Except.error ToolFail.timeout⟩).error ≠ none := by
  have h := tool_ops_catch_exceptions
  refine ⟨(h.1 _ "Access denied: x.py" rfl).1, (h.1 _ "Access denied: x.py" rfl).2,
    (h.2.2.2.1 ⟨[("a.py", "old")], []⟩ ⟨Except.ok "a.py", "ts", false, true⟩
      "a.py" "new" true rfl).1,
    (h.2.2.2.2.2.2.2.2.2.2.1 _ ToolFail.timeout rfl).1,
    (h.2.2.2.2.2.2.2.2.2.2.1 _ ToolFail.timeout rfl).2⟩

end RefactoringSwarm

namespace RefactoringSwarm

/-! ## Orchestrator: the per-file bounded retry loop (`main.py`, C4/C5)

`RefactoringOrchestrator.phase_2_refactoring_loop`, lines 200–317.  The
`while iteration < self.max_iterations` loop is embedded as a recursion
on the remaining iteration count (`fuel`); running out of fuel is the
`while`/`else` branch, i.e. the max-iterations-reached outcome.  The
environment supplies, per iteration number, the outcome of every
external action; the result records the final counters, the terminal
outcome and a trace of the executed iterations. -/

/-- A loop-carried failure context (`test_errors` in the source): the
output text and the statistics dictionary handed to the fixer's
repair-from-error mode. -/
structure ErrCtx where
  output : String
  statistics : List (String × Nat)
  deriving DecidableEq

/-- The statistics dictionary of a pytest run, as stored into the
failure context. -/
def pytestStatsDict (s : PytestStats) : List (String × Nat) :=
  [("passed", s.passed), ("failed", s.failed), ("errors", s.errors),
   ("skipped", s.skipped), ("total", s.total)]

/-- The failure context built at lines 274–277 when the syntax check
reports invalid: only the line number is interpolated into the output
string, with a fixed one-failed statistics dictionary. -/
def synErrorCtx (line : Nat) : ErrCtx :=
  { output := "Syntax error at line " ++ toString line
    statistics := [("passed", 0), ("failed", 1), ("total", 1)] }

/-- Which fixer entry point an iteration invoked: `fix_file` with the
refactoring plan, or `fix_from_test_errors` with the carried context. -/
inductive FixerMode where
  | plan
  | repair (ctx : ErrCtx)
  deriving DecidableEq

/-- Terminal outcome of one file's loop. -/
inductive FileOutcome where
  | success
  | exhausted
  | readFailed
  | fixerFailed
  | writeFailed
  deriving DecidableEq

/-- What one executed iteration did: its number, the fixer mode invoked
(`none` when the read failed before the fixer was reached), and whether
the test runner was invoked. -/
structure IterRecord where
  index : Nat
  fixerMode : Option FixerMode
  testsRan : Bool
  deriving DecidableEq

/-- Result of one file's loop: final iteration counter, process-wide
total-iteration counter, terminal outcome, iteration trace. -/
structure LoopResult where
  iteration : Nat
  totalIterations : Nat
  outcome : FileOutcome
  trace : List IterRecord
  deriving DecidableEq

/-- External action outcomes of one loop iteration: `read_file`
success, fixer-result success, `write_file` success, the `valid` flag
and error line of `validate_python_syntax` on the written content, the
pytest output/statistics, and the judge's `tests_passed` verdict (the
`evaluation.get("tests_passed", False)` read at line 298). -/
structure IterEnv where
  readOk : Bool
  fixOk : Bool
  writeOk : Bool
  synValid : Bool
  synMsg : String
  synLine : Nat
  testOutput : String
  testStats : PytestStats
  judgePassed : Bool
  deriving DecidableEq

/-- Embeds the `while` body of `phase_2_refactoring_loop`.  Arguments
after the environment: remaining iterations, iteration counter, total
iteration counter, carried `test_errors`, trace so far. -/
def refactor_loop (env : Nat → IterEnv) :
    Nat → Nat → Nat → Option ErrCtx → List IterRecord → LoopResult
  | 0, iteration, total, _, trace =>
      { iteration := iteration, totalIterations := total
        outcome := FileOutcome.exhausted, trace := trace }
  | fuel + 1, iteration, total, test_errors, trace =>
      let it := iteration + 1
      let tot := total + 1
      let e := env it
      if ¬ e.readOk then
        { iteration := it, totalIterations := tot, outcome := FileOutcome.readFailed
          trace := trace ++ [{ index := it, fixerMode := none, testsRan := false }] }
      else
        let mode := match test_errors with
          | some ctx => FixerMode.repair ctx
          | none => FixerMode.plan
        if ¬ e.fixOk then
          { iteration := it, totalIterations := tot, outcome := FileOutcome.fixerFailed
            trace := trace ++ [{ index := it, fixerMode := some mode, testsRan := false }] }
        else if ¬ e.writeOk then
          { iteration := it, totalIterations := tot, outcome := FileOutcome.writeFailed
            trace := trace ++ [{ index := it, fixerMode := some mode, testsRan := false }] }
        else if ¬ e.synValid then
          refactor_loop env fuel it tot (some (synErrorCtx e.synLine))
            (trace ++ [{ index := it, fixerMode := some mode, testsRan := false }])
        else if e.judgePassed then
          { iteration := it, totalIterations := tot, outcome := FileOutcome.success
            trace := trace ++ [{ index := it, fixerMode := some mode, testsRan := true }] }
        else
          refactor_loop env fuel it tot
            (some { output := e.testOutput, statistics := pytestStatsDict e.testStats })
            (trace ++ [{ index := it, fixerMode := some mode, testsRan := true }])

/-- One file's run of the phase-2 loop: iteration counter 0, carried
context empty, `total0` the process-wide counter on entry. -/
def phase2_file (env : Nat → IterEnv) (max_iterations total0 : Nat) : LoopResult :=
  refactor_loop env max_iterations 0 total0 none []

/-- The loop's iteration counter gains at most `fuel`. -/
theorem refactor_loop_iteration_le (env : Nat → IterEnv) (fuel : Nat) :
    ∀ (it tot : Nat) (ctx : Option ErrCtx) (trace : List IterRecord),
      (refactor_loop env fuel it tot ctx trace).iteration ≤ it + fuel := by
  induction fuel with
  | zero => intro it tot ctx trace; simp [refactor_loop]
  | succ f ih =>
      intro it tot ctx trace
      rw [refactor_loop.eq_def]
      by_cases h1 : (env (it + 1)).readOk
      · by_cases h2 : (env (it + 1)).fixOk
        · by_cases h3 : (env (it + 1)).writeOk
          · by_cases h4 : (env (it + 1)).synValid
            · by_cases h5 : (env (it + 1)).judgePassed
              · simp only [h1, h2, h3, h4, h5]
                simp
              · simp only [h1, h2, h3, h4, h5]
                simp
                have := ih (it + 1) (tot + 1)
                  (some { output := (env (it + 1)).testOutput
                          statistics := pytestStatsDict (env (it + 1)).testStats })
                  (trace ++ [{ index := it + 1, fixerMode := some (match ctx with
                    | some c => FixerMode.repair c
                    | none => FixerMode.plan), testsRan := true }])
                omega
            · simp only [h1, h2, h3, h4]
              simp
              have := ih (it + 1) (tot + 1) (some (synErrorCtx (env (it + 1)).synLine))
                (trace ++ [{ index := it + 1, fixerMode := some (match ctx with
                  | some c => FixerMode.repair c
                  | none => FixerMode.plan), testsRan := false }])
              omega
          · simp only [h1, h2, h3]
            simp
        · simp only [h1, h2]
          simp
      · simp only [h1]
        simp

/-- When every reachable iteration reads, fixes and writes successfully
but never passes the judge, the loop consumes all its fuel and ends
exhausted, adding one to both counters per iteration. -/
theorem refactor_loop_exhausts (env : Nat → IterEnv) (fuel : Nat) :
    ∀ (it tot : Nat) (ctx : Option ErrCtx) (trace : List IterRecord),
      (∀ i, it < i → i ≤ it + fuel →
        (env i).readOk = true ∧ (env i).fixOk = true ∧ (env i).writeOk = true
        ∧ (env i).judgePassed = false) →
      (refactor_loop env fuel it tot ctx trace).iteration = it + fuel
      ∧ (refactor_loop env fuel it tot ctx trace).totalIterations = tot + fuel
      ∧ (refactor_loop env fuel it tot ctx trace).outcome = FileOutcome.exhausted := by
  induction fuel with
  | zero => intro it tot ctx trace _; simp [refactor_loop]
  | succ f ih =>
      intro it tot ctx trace h
      obtain ⟨hr, hf, hw, hj⟩ := h (it + 1) (by omega) (by omega)
      have hrec : ∀ i, it + 1 < i → i ≤ it + 1 + f →
          (env i).readOk = true ∧ (env i).fixOk = true ∧ (env i).writeOk = true
          ∧ (env i).judgePassed = false := fun i h1 h2 => h i (by omega) (by omega)
      rw [refactor_loop.eq_def]
      by_cases hs : (env (it + 1)).synValid
      · simp only [hr, hf, hw, hs, hj]
        simp
        have := ih (it + 1) (tot + 1)
          (some { output := (env (it + 1)).testOutput
                  statistics := pytestStatsDict (env (it + 1)).testStats })
          (trace ++ [{ index := it + 1, fixerMode := some (match ctx with
            | some c => FixerMode.repair c
            | none => FixerMode.plan), testsRan := true }]) hrec
        refine ⟨by omega, by omega, this.2.2⟩
      · simp only [hr, hf, hw, hs]
        simp
        have := ih (it + 1) (tot + 1) (some (synErrorCtx (env (it + 1)).synLine))
          (trace ++ [{ index := it + 1, fixerMode := some (match ctx with
            | some c => FixerMode.repair c
            | none => FixerMode.plan), testsRan := false }]) hrec
        refine ⟨by omega, by omega, this.2.2⟩

end RefactoringSwarm

namespace RefactoringSwarm

/-- Trace invariant: the test runner is invoked in an iteration only
when that iteration's syntax check reported valid (the syntax-invalid
branch `continue`s before `run_pytest`). -/
theorem refactor_loop_tests_only_when_valid (env : Nat → IterEnv) (fuel : Nat) :
    ∀ (it tot : Nat) (ctx : Option ErrCtx) (trace : List IterRecord),
      (∀ r ∈ trace, r.testsRan = true → (env r.index).synValid = true) →
      ∀ r ∈ (refactor_loop env fuel it tot ctx trace).trace,
        r.testsRan = true → (env r.index).synValid = true := by
  induction fuel with
  | zero =>
      intro it tot ctx trace hinv
      simpa [refactor_loop] using hinv
  | succ f ih =>
      intro it tot ctx trace hinv
      have hext : ∀ (a : IterRecord),
          (a.testsRan = true → (env a.index).synValid = true) →
          ∀ r ∈ trace ++ [a], r.testsRan = true → (env r.index).synValid = true := by
        intro a ha r hr
        rcases List.mem_append.mp hr with hcase | hcase
        · exact hinv r hcase
        · rw [List.mem_singleton] at hcase
          subst hcase
          exact ha
      rw [refactor_loop.eq_def]
      by_cases h1 : (env (it + 1)).readOk
      · by_cases h2 : (env (it + 1)).fixOk
        · by_cases h3 : (env (it + 1)).writeOk
          · by_cases h4 : (env (it + 1)).synValid
            · by_cases h5 : (env (it + 1)).judgePassed
              · simp only [h1, h2, h3, h4, h5]
                simp only [Bool.not_true, Bool.false_eq_true, if_false, ite_true,
                  ite_false, not_true_eq_false, not_false_eq_true, if_neg, if_pos]
                exact hext _ (fun _ => h4)
              · simp only [h1, h2, h3, h4, h5]
                simp only [Bool.not_true, Bool.false_eq_true, if_false, ite_true,
                  ite_false, not_true_eq_false, not_false_eq_true, if_neg, if_pos]
                exact ih _ _ _ _ (hext _ (fun _ => h4))
            · simp only [h1, h2, h3, h4]
              simp only [Bool.not_true, Bool.false_eq_true, if_false, ite_true,
                ite_false, not_true_eq_false, not_false_eq_true, if_neg, if_pos,
                Bool.not_false]
              exact ih _ _ _ _ (hext _ (by intro hh; cases hh))
          · simp only [h1, h2, h3]
            simp only [Bool.not_true, Bool.false_eq_true, if_false, ite_true,
              ite_false, not_true_eq_false, not_false_eq_true, if_neg, if_pos,
              Bool.not_false]
            exact hext _ (by intro hh; cases hh)
        · simp only [h1, h2]
          simp only [Bool.not_true, Bool.false_eq_true, if_false, ite_true,
            ite_false, not_true_eq_false, not_false_eq_true, if_neg, if_pos,
            Bool.not_false]
          exact hext _ (by intro hh; cases hh)
      · simp only [h1]
        simp only [Bool.not_true, Bool.false_eq_true, if_false, ite_true,
          ite_false, not_true_eq_false, not_false_eq_true, if_neg, if_pos,
          Bool.not_false]
        exact hext _ (by intro hh; cases hh)

end RefactoringSwarm

namespace RefactoringSwarm

/-- Claim C4: the per-file iteration counter never exceeds the
configured maximum, and a file whose fixed content never passes the
judge's verdict (under iterations whose read/fix/write steps all
succeed) terminates in the max-iterations-reached outcome after exactly
`N` iterations, each added to the process-wide total-iteration counter. -/
theorem refactoring_loop_bounded_and_exhausts (env : Nat → IterEnv) (N total0 : Nat)
    (h : ∀ i, 1 ≤ i → i ≤ N →
      (env i).readOk = true ∧ (env i).fixOk = true ∧ (env i).writeOk = true
      ∧ (env i).judgePassed = false) :
    (∀ (envA : Nat → IterEnv) (M t : Nat), (phase2_file envA M t).iteration ≤ M)
    ∧ (phase2_file env N total0).iteration = N
    ∧ (phase2_file env N total0).totalIterations = total0 + N
    ∧ (phase2_file env N total0).outcome = FileOutcome.exhausted := by
  have he := refactor_loop_exhausts env N 0 total0 none []
    (fun i h1 h2 => h i (by omega) (by omega))
  refine ⟨fun envA M t => ?_, ?_, ?_, ?_⟩
  · have hb := refactor_loop_iteration_le envA M 0 t none []
    simpa [phase2_file] using hb
  · simpa [phase2_file] using he.1
  · simpa [phase2_file] using he.2.1
  · simpa [phase2_file] using he.2.2

/-- Witness for C4: a constant environment that always reads, fixes and
writes but never passes the judge, run with maximum 3 from a total
counter of 5: exhausted after exactly 3 iterations, total counter 8. -/
theorem refactoring_loop_bounded_and_exhausts_witness :
    (phase2_file (fun _ => ⟨true, true, true, true, "", 0, "1 failed", ⟨0, 1, 0, 0, 1⟩, false⟩)
        3 5).iteration = 3
    ∧ (phase2_file (fun _ => ⟨true, true, true, true, "", 0, "1 failed", ⟨0, 1, 0, 0, 1⟩, false⟩)
        3 5).totalIterations = 8
    ∧ (phase2_file (fun _ => ⟨true, true, true, true, "", 0, "1 failed", ⟨0, 1, 0, 0, 1⟩, false⟩)
        3 5).outcome = FileOutcome.exhausted := by
  have h := refactoring_loop_bounded_and_exhausts
    (fun _ => ⟨true, true, true, true, "", 0, "1 failed", ⟨0, 1, 0, 0, 1⟩, false⟩) 3 5
    (fun i _ _ => ⟨rfl, rfl, rfl, rfl⟩)
  exact ⟨h.2.1, h.2.2.1, h.2.2.2⟩

/-- Two-iteration scenario: syntax failure on iteration 1 (line `L`),
then syntax-valid and judge-passed on iteration 2. -/
theorem refactor_loop_syntax_then_success (env : Nat → IterEnv) (k t L : Nat)
    (h1r : (env 1).readOk = true) (h1f : (env 1).fixOk = true)
    (h1w : (env 1).writeOk = true) (h1s : (env 1).synValid = false)
    (h1l : (env 1).synLine = L)
    (h2r : (env 2).readOk = true) (h2f : (env 2).fixOk = true)
    (h2w : (env 2).writeOk = true) (h2s : (env 2).synValid = true)
    (h2j : (env 2).judgePassed = true) :
    refactor_loop env (Nat.succ (Nat.succ k)) 0 t none [] =
      { iteration := 2, totalIterations := t + 2, outcome := FileOutcome.success
        trace := [{ index := 1, fixerMode := some FixerMode.plan, testsRan := false },
                  { index := 2, fixerMode := some (FixerMode.repair (synErrorCtx L))
                    testsRan := true }] } := by
  rw [refactor_loop.eq_def]
  simp only [h1r, h1f, h1w, h1s, h1l, Bool.not_true, Bool.false_eq_true, if_false,
    ite_true, ite_false, not_true_eq_false, not_false_eq_true, if_neg, if_pos,
    Bool.not_false, Nat.zero_add, List.nil_append]
  rw [refactor_loop.eq_def]
  simp only [h2r, h2f, h2w, h2s, h2j, Bool.not_true, Bool.false_eq_true, if_false,
    ite_true, ite_false, not_true_eq_false, not_false_eq_true, if_neg, if_pos,
    Bool.not_false, List.singleton_append]

end RefactoringSwarm

namespace RefactoringSwarm

/-- Claim C5 (amended): in every iteration whose syntax check reports
invalid, tests are not run; the failure context built from a syntax
error carries the error line — as the output string `"Syntax error at
line L"` with statistics `passed 0, failed 1, total 1` — but not the
error message, and is passed to the fixer in repair-from-error mode on
the next iteration; a file failing syntax on iteration 1 and passing
syntax and tests on iteration 2 terminates with outcome success after
exactly 2 iterations. -/
theorem syntax_invalid_iterations_skip_tests (env : Nat → IterEnv) (N t L tot : Nat)
    (hN : 2 ≤ N)
    (h1r : (env 1).readOk = true) (h1f : (env 1).fixOk = true)
    (h1w : (env 1).writeOk = true) (h1s : (env 1).synValid = false)
    (h1l : (env 1).synLine = L)
    (h2r : (env 2).readOk = true) (h2f : (env 2).fixOk = true)
    (h2w : (env 2).writeOk = true) (h2s : (env 2).synValid = true)
    (h2j : (env 2).judgePassed = true) :
    (∀ (envA : Nat → IterEnv) (M : Nat), ∀ r ∈ (phase2_file envA M tot).trace,
        r.testsRan = true → (envA r.index).synValid = true)
    ∧ phase2_file env N t =
        { iteration := 2, totalIterations := t + 2, outcome := FileOutcome.success
          trace := [{ index := 1, fixerMode := some FixerMode.plan, testsRan := false },
                    { index := 2, fixerMode := some (FixerMode.repair (synErrorCtx L))
                      testsRan := true }] } := by
  constructor
  · intro envA M
    exact refactor_loop_tests_only_when_valid envA M 0 tot none [] (by simp)
  · obtain ⟨k, rfl⟩ : ∃ k, N = Nat.succ (Nat.succ k) := ⟨N - 2, by omega⟩
    exact refactor_loop_syntax_then_success env k t L h1r h1f h1w h1s h1l h2r h2f h2w
      h2s h2j

/-- Witness for C5 at a concrete environment: syntax error at line 7 on
iteration 1, clean pass on iteration 2, maximum 10. -/
theorem syntax_invalid_iterations_skip_tests_witness :
    phase2_file
        (fun i => if i = 1 then ⟨true, true, true, false, "invalid syntax", 7, "", ⟨0, 0, 0, 0, 0⟩, false⟩
          else ⟨true, true, true, true, "", 0, "1 passed", ⟨1, 0, 0, 0, 1⟩, true⟩) 10 0 =
      { iteration := 2, totalIterations := 2, outcome := FileOutcome.success
        trace := [{ index := 1, fixerMode := some FixerMode.plan, testsRan := false },
                  { index := 2, fixerMode := some (FixerMode.repair (synErrorCtx 7))
                    testsRan := true }] } := by
  have h := syntax_invalid_iterations_skip_tests
    (fun i => if i = 1 then ⟨true, true, true, false, "invalid syntax", 7, "", ⟨0, 0, 0, 0, 0⟩, false⟩
      else ⟨true, true, true, true, "", 0, "1 passed", ⟨1, 0, 0, 0, 1⟩, true⟩)
    10 0 7 0 (by omega) rfl rfl rfl rfl rfl rfl rfl rfl rfl rfl
  simpa using h.2

/-- Loop environment with a syntax error whose message is
`"invalid syntax"` on iteration 1 and a clean pass on iteration 2. -/
def c5EnvMsgA : Nat → IterEnv := fun i =>
  if i = 1 then ⟨true, true, true, false, "invalid syntax", 3, "", ⟨0, 0, 0, 0, 0⟩, false⟩
  else ⟨true, true, true, true, "", 0, "1 passed in 0.01s", ⟨1, 0, 0, 0, 1⟩, true⟩

/-- The same environment except that the iteration-1 syntax error
message is `"unexpected EOF while parsing"`. -/
def c5EnvMsgB : Nat → IterEnv := fun i =>
  if i = 1 then ⟨true, true, true, false, "unexpected EOF while parsing", 3, "", ⟨0, 0, 0, 0, 0⟩, false⟩
  else ⟨true, true, true, true, "", 0, "1 passed in 0.01s", ⟨1, 0, 0, 0, 1⟩, true⟩

/-- Claim C5, counterexample: the claim says the syntax-error context
(message and line) is recorded and passed to the fixer, but the recorded
context is the string `"Syntax error at line 3"` — which does not
contain the message — with fixed statistics, and two runs that differ
only in the syntax error message produce identical traces including the
context handed to the fixer on iteration 2: the message is not recorded. -/
theorem syntax_error_message_not_recorded :
    (c5EnvMsgA 1).synValid = false
    ∧ (c5EnvMsgA 1).synMsg = "invalid syntax"
    ∧ (c5EnvMsgB 1).synMsg = "unexpected EOF while parsing"
    ∧ (c5EnvMsgA 1).synMsg ≠ (c5EnvMsgB 1).synMsg
    ∧ (phase2_file c5EnvMsgA 10 0).trace =
        [{ index := 1, fixerMode := some FixerMode.plan, testsRan := false },
         { index := 2, fixerMode := some (FixerMode.repair
            { output := "Syntax error at line 3"
              statistics := [("passed", 0), ("failed", 1), ("total", 1)] })
           testsRan := true }]
    ∧ strContains "Syntax error at line 3" "invalid syntax" = false
    ∧ (phase2_file c5EnvMsgA 10 0).trace = (phase2_file c5EnvMsgB 10 0).trace := by
  decide

end RefactoringSwarm

namespace RefactoringSwarm

/-! ## Orchestrator: discovery-phase selection (`main.py`, C10)

`RefactoringOrchestrator.phase_1_discovery`, lines 106–198: test files
are skipped by substring match on the relative path; for the rest, the
score is read with default 10 and a `None` score is replaced by 10; a
file is considered for repair when `score < 8.0 or issues > 5`, and is
added to the repair set — recording `initial_score = score` — when the
read and the auditor analysis both succeed. -/

/-- Embeds the test-file skip at line 137:
`"test_" in rel_path or "/tests/" in rel_path`. -/
def is_test_file (rel_path : String) : Bool :=
  strContains rel_path "test_" || strContains rel_path "/tests/"

/-- Outcomes of the external steps taken for one selected file:
`read_file` success, and whether `analyze_file_with_fallback` returned
success with a non-`None` analysis (with its `used_fallback` flag). -/
structure DiscoveryEnv where
  readOk : Bool
  auditOk : Bool
  usedFallback : Bool
  deriving DecidableEq

/-- A member of `files_to_fix` (the fields the later loop reads). -/
structure FixCandidate where
  initial_score : ℚ
  used_fallback : Bool
  deriving DecidableEq

/-- Embeds the per-file body of `phase_1_discovery` (lines 132–195) for
a file whose pylint run succeeded: skip test files, default an absent
score to 10, select when `score < 8.0 or issues > 5`, and append a
candidate recording that score when the read and audit succeed. -/
def phase1_select (rel_path : String) (score : Option ℚ) (total_issues : Nat)
    (env : DiscoveryEnv) : Option FixCandidate :=
  if is_test_file rel_path then none
  else
    let score := score.getD 10
    if score < 8 ∨ 5 < total_issues then
      if env.readOk then
        if env.auditOk then
          some { initial_score := score, used_fallback := env.usedFallback }
        else none
      else none
    else none

end RefactoringSwarm

namespace RefactoringSwarm

/-- Claim C10: a non-test file whose analyzer run succeeded with an
absent score is treated as if its score were 10: with read and audit
succeeding it is selected for repair exactly when its issue count
exceeds 5, and any candidate it produces records initial score 10. -/
theorem discovery_absent_score_treated_as_ten (rel_path : String) (total_issues : Nat)
    (env : DiscoveryEnv) (ht : is_test_file rel_path = false) :
    (env.readOk = true → env.auditOk = true →
      ((phase1_select rel_path none total_issues env).isSome ↔ 5 < total_issues))
    ∧ (∀ c, phase1_select rel_path none total_issues env = some c →
        c.initial_score = 10) := by
  have hten : ¬ ((10 : ℚ) < 8) := by norm_num
  constructor
  · intro hr ha
    by_cases hi : 5 < total_issues
    · simp [phase1_select, ht, hi, hr, ha]
    · simp [phase1_select, ht, hi, hten]
  · intro c hc
    by_cases hi : 5 < total_issues
    · by_cases hr : env.readOk
      · by_cases ha : env.auditOk
        · simp only [phase1_select, ht, Bool.false_eq_true, if_false, Option.getD] at hc
          rw [if_pos (Or.inr hi), if_pos hr, if_pos ha] at hc
          cases hc
          rfl
        · simp [phase1_select, ht, hi, hr, ha] at hc
      · simp [phase1_select, ht, hi, hr] at hc
    · simp [phase1_select, ht, hi, hten] at hc

/-- Witness for C10: a non-test file with an absent score and 7 issues
is selected and records initial score 10. -/
theorem discovery_absent_score_treated_as_ten_witness :
    is_test_file "buggy_7.py" = false
    ∧ (phase1_select "buggy_7.py" none 7 ⟨true, true, false⟩).isSome = true
    ∧ phase1_select "buggy_7.py" none 7 ⟨true, true, false⟩
        = some { initial_score := 10, used_fallback := false } := by
  have h := discovery_absent_score_treated_as_ten "buggy_7.py" 7 ⟨true, true, false⟩
    (by decide)
  exact ⟨by decide, (h.1 rfl rfl).mpr (by omega), by decide⟩

end RefactoringSwarm
